import Mathlib

/-!
Verification of `extensions/amp-fx-collection/0.1/providers/amp-fx-presets.js`.

The file defines four scroll-driven visual-effect presets (`parallax`,
`fly-in-bottom`, `fade-in`, `fade-in-scroll`), each with three capabilities:
`isFxTypeSupported`, `userAsserts` and `update`.  We embed them shallowly:

* JS numbers are rationals (`ℚ`); the arithmetic in this file is exact
  (no overflow, and the only division is guarded by validated margins).
* `parseFloat` results are modelled by `JsNum` (`nan` or a rational):
  an element attribute is `Option JsNum`, where `none` means the attribute
  is absent (`getAttribute` returns `null`, `parseFloat(null)` is `NaN`)
  and `some v` means the attribute is present and its string parses to `v`.
* `user().assert(cond, ...)` / `dev().assert(v)` raising is modelled by
  `Except Unit`: `.error ()` is a thrown assertion error.  `dev().assert(x)`
  on the numeric field `adjustedViewportHeight_` fails exactly when the
  number is falsy, i.e. equal to 0.
* `update` is side-effecting on the host element; we model the element's
  mutable fields as `FxState` and let `update` return the new state together
  with the number of `mutateElement` calls made during that invocation
  (0 or 1).  The scheduled mutation callback itself only writes styles and
  clears the flag, which no claim quantifies over.
-/

/-- Result of `parseFloat` on a JS string: either `NaN` or a number. -/
inductive JsNum where
  | nan : JsNum
  | num : ℚ → JsNum
deriving DecidableEq

/-- `parseFloat(element.getAttribute(attr))`: an absent attribute yields
`null`, and `parseFloat(null)` is `NaN`. -/
def parseFloatAttr : Option JsNum → JsNum
  | none => .nan
  | some v => v

/-- The JS condition `parseFloat(x) >= 0 && parseFloat(x) < 1`; every
comparison with `NaN` is false. -/
def JsNum.ge0lt1 : JsNum → Bool
  | .nan => false
  | .num q => decide (0 ≤ q) && decide (q < 1)

/-- The JS condition `parseFloat(x) > 0`. -/
def JsNum.gt0 : JsNum → Bool
  | .nan => false
  | .num q => decide (0 < q)

/-- The JS condition `parseFloat(a) > parseFloat(b)`. -/
def JsNum.gtNum : JsNum → JsNum → Bool
  | .num a, .num b => decide (b < a)
  | _, _ => false

/-- The attributes of the host element that the presets read (absent /
present-with-parsed-value, see `parseFloatAttr`). -/
structure FxElementAttrs where
  dataParallaxFactor : Option JsNum
  dataMargin : Option JsNum
  dataMarginStart : Option JsNum
  dataMarginEnd : Option JsNum
deriving DecidableEq

/-- The mutable/cached fields of the host `FxElement` that `update` reads
and writes: `adjustedViewportHeight_`, the validated numeric parameters
returned by `getFactor`/`getMargin`/`getMarginStart`/`getMarginEnd`, the
stored `offset`, the `mutateScheduled` guard flag and `hasRepeat`. -/
structure FxState where
  adjustedViewportHeight : ℚ
  factor : ℚ
  margin : ℚ
  marginStart : ℚ
  marginEnd : ℚ
  offset : ℚ
  mutateScheduled : Bool
  hasRepeat : Bool
deriving DecidableEq

/-- A scroll entry: `positionRect` is absent (`none`) when the element does
not intersect the viewport; only its `top` is read by the presets. -/
structure ScrollEntry where
  positionRect : Option ℚ
deriving DecidableEq

/-- The four presets of the registry, keyed in the source by the strings
`parallax`, `fly-in-bottom`, `fade-in` and `fade-in-scroll`. -/
inductive Preset where
  | parallax
  | flyInBottom
  | fadeIn
  | fadeInScroll
deriving DecidableEq

/-- The environment bits read by `isFxTypeSupported`: the two experiment
flags queried through `isExperimentOn`. -/
structure AmpWin where
  ampFxFadeIn : Bool
  ampFxFadeInScroll : Bool
deriving DecidableEq

/-- `Presets['parallax'].userAsserts`: the first `user().assert` fails when
`data-parallax-factor` is absent, the second when its parsed value is not
greater than 0. -/
def parallaxUserAsserts (el : FxElementAttrs) : Except Unit Unit :=
  match el.dataParallaxFactor with
  | none => .error ()
  | some fv => if fv.gt0 then .ok () else .error ()

/-- `Presets['fly-in-bottom'].userAsserts`: returns early when `data-margin`
is absent, otherwise asserts the parsed value lies in `[0, 1)`. -/
def flyInBottomUserAsserts (el : FxElementAttrs) : Except Unit Unit :=
  match el.dataMargin with
  | none => .ok ()
  | some m => if m.ge0lt1 then .ok () else .error ()

/-- `Presets['fade-in'].userAsserts`: returns early when `data-margin-start`
is absent, otherwise asserts the parsed value lies in `[0, 1)`. -/
def fadeInUserAsserts (el : FxElementAttrs) : Except Unit Unit :=
  match el.dataMarginStart with
  | none => .ok ()
  | some ms => if ms.ge0lt1 then .ok () else .error ()

/-- `Presets['fade-in-scroll'].userAsserts`: returns early when neither
margin attribute is present; otherwise asserts both parsed values lie in
`[0, 1)` and that `marginEnd > marginStart`.  An absent attribute at this
point parses to `NaN` and fails its range assertion. -/
def fadeInScrollUserAsserts (el : FxElementAttrs) : Except Unit Unit :=
  if el.dataMarginStart = none ∧ el.dataMarginEnd = none then .ok ()
  else
    let ms := parseFloatAttr el.dataMarginStart
    if ¬ ms.ge0lt1 then .error ()
    else
      let me := parseFloatAttr el.dataMarginEnd
      if ¬ me.ge0lt1 then .error ()
      else if ¬ me.gtNum ms then .error ()
      else .ok ()

/-- `isFxTypeSupported` per preset.  `parallax` and `fly-in-bottom` return
`true`.  The experimental presets call `user().assert(isExperimentOn(...))`
and then fall off the end of the function: they raise when the flag is off
and otherwise return `undefined`, modelled as `Except.ok none` (`some b`
would be an actual boolean return value). -/
def Presets.isFxTypeSupported : Preset → AmpWin → Except Unit (Option Bool)
  | .parallax, _ => .ok (some true)
  | .flyInBottom, _ => .ok (some true)
  | .fadeIn, win => if win.ampFxFadeIn then .ok none else .error ()
  | .fadeInScroll, win => if win.ampFxFadeInScroll then .ok none else .error ()

/-- `Presets.userAsserts` dispatch. -/
def Presets.userAsserts : Preset → FxElementAttrs → Except Unit Unit
  | .parallax => parallaxUserAsserts
  | .flyInBottom => flyInBottomUserAsserts
  | .fadeIn => fadeInUserAsserts
  | .fadeInScroll => fadeInScrollUserAsserts

/-- `Presets['parallax'].update`.  After the `dev().assert` on
`adjustedViewportHeight_` and the viewport guard, the offset
`(adjustedViewportHeight - top) * -(factor - 1)` is stored
unconditionally; only then does the `mutateScheduled` guard decide whether
a mutation is scheduled. -/
def parallaxUpdate (st : FxState) (entry : ScrollEntry) :
    Except Unit (FxState × Nat) :=
  if st.adjustedViewportHeight = 0 then .error ()
  else
    match entry.positionRect with
    | none => .ok (st, 0)
    | some top =>
      if st.adjustedViewportHeight < top then .ok (st, 0)
      else
        let adjustedFactor := -(st.factor - 1)
        let offset := (st.adjustedViewportHeight - top) * adjustedFactor
        let st1 := { st with offset := offset }
        if st1.mutateScheduled then .ok (st1, 0)
        else .ok ({ st1 with mutateScheduled := true }, 1)

/-- `Presets['fly-in-bottom'].update`: viewport guard at
`(1 - margin) * adjustedViewportHeight`, then the `mutateScheduled` guard,
then schedule the fixed `translateY(-150px)` mutation. -/
def flyInBottomUpdate (st : FxState) (entry : ScrollEntry) :
    Except Unit (FxState × Nat) :=
  if st.adjustedViewportHeight = 0 then .error ()
  else
    match entry.positionRect with
    | none => .ok (st, 0)
    | some top =>
      if (1 - st.margin) * st.adjustedViewportHeight < top then .ok (st, 0)
      else if st.mutateScheduled then .ok (st, 0)
      else .ok ({ st with mutateScheduled := true }, 1)

/-- `Presets['fade-in'].update`: same shape as fly-in-bottom with
`marginStart` in the viewport guard; the scheduled mutation sets
`opacity: 1`. -/
def fadeInUpdate (st : FxState) (entry : ScrollEntry) :
    Except Unit (FxState × Nat) :=
  if st.adjustedViewportHeight = 0 then .error ()
  else
    match entry.positionRect with
    | none => .ok (st, 0)
    | some top =>
      if (1 - st.marginStart) * st.adjustedViewportHeight < top then .ok (st, 0)
      else if st.mutateScheduled then .ok (st, 0)
      else .ok ({ st with mutateScheduled := true }, 1)

/-- The fade-in-scroll offset formula
`1 * (avh - top - marginStart*avh) / ((marginEnd - marginStart) * avh)`. -/
def fadeInScrollOffset (avh top marginStart marginEnd : ℚ) : ℚ :=
  1 * (avh - top - marginStart * avh) / ((marginEnd - marginStart) * avh)

/-- `Presets['fade-in-scroll'].update`: viewport guard at
`(1 - marginStart) * adjustedViewportHeight`, then an early
`mutateScheduled` guard, then the no-repeat/fully-opaque early exit, then
the offset is computed and stored, then a second (source-faithful, already
unreachable) `mutateScheduled` guard, then the `opacity: offset` mutation
is scheduled. -/
def fadeInScrollUpdate (st : FxState) (entry : ScrollEntry) :
    Except Unit (FxState × Nat) :=
  if st.adjustedViewportHeight = 0 then .error ()
  else
    match entry.positionRect with
    | none => .ok (st, 0)
    | some top =>
      if (1 - st.marginStart) * st.adjustedViewportHeight < top then .ok (st, 0)
      else if st.mutateScheduled then .ok (st, 0)
      else if ¬ st.hasRepeat ∧ 1 ≤ st.offset then .ok (st, 0)
      else
        let st1 := { st with offset := (fadeInScrollOffset
          st.adjustedViewportHeight top st.marginStart st.marginEnd) }
        if st1.mutateScheduled then .ok (st1, 0)
        else .ok ({ st1 with mutateScheduled := true }, 1)

/-- `Presets.update` dispatch. -/
def Presets.update : Preset → FxState → ScrollEntry → Except Unit (FxState × Nat)
  | .parallax => parallaxUpdate
  | .flyInBottom => flyInBottomUpdate
  | .fadeIn => fadeInUpdate
  | .fadeInScroll => fadeInScrollUpdate

instance {ε α : Type} [DecidableEq ε] [DecidableEq α] : DecidableEq (Except ε α) := fun a b =>
  match a, b with
  | .ok x, .ok y =>
    if h : x = y then .isTrue (by rw [h]) else .isFalse (by intro hc; cases hc; exact h rfl)
  | .error x, .error y =>
    if h : x = y then .isTrue (by rw [h]) else .isFalse (by intro hc; cases hc; exact h rfl)
  | .ok _, .error _ => .isFalse (by intro hc; cases hc)
  | .error _, .ok _ => .isFalse (by intro hc; cases hc)

/-! ### Helper lemmas about `Presets.update` shared by the results below -/

/-- Two element states with equal fields are equal. -/
theorem FxState.eq_of_fields {a b : FxState}
    (h1 : a.adjustedViewportHeight = b.adjustedViewportHeight) (h2 : a.factor = b.factor)
    (h3 : a.margin = b.margin) (h4 : a.marginStart = b.marginStart)
    (h5 : a.marginEnd = b.marginEnd) (h6 : a.offset = b.offset)
    (h7 : a.mutateScheduled = b.mutateScheduled) (h8 : a.hasRepeat = b.hasRepeat) : a = b := by
  cases a; cases b; simp_all

/-- `update` only succeeds when the `dev().assert` on
`adjustedViewportHeight_` passes, i.e. the height is nonzero. -/
theorem update_ok_avh {p : Preset} {st : FxState} {e : ScrollEntry} {r : FxState × Nat}
    (h : Presets.update p st e = .ok r) : st.adjustedViewportHeight ≠ 0 := by
  intro hz
  cases p <;>
    simp [Presets.update, parallaxUpdate, flyInBottomUpdate, fadeInUpdate,
      fadeInScrollUpdate, hz] at h

/-- When the `dev().assert` passes, `update` runs to completion. -/
theorem update_total (p : Preset) (st : FxState) (e : ScrollEntry)
    (hv : st.adjustedViewportHeight ≠ 0) :
    ∃ r, Presets.update p st e = .ok r := by
  obtain ⟨rect⟩ := e
  cases p <;> cases rect <;>
    simp only [Presets.update, parallaxUpdate, flyInBottomUpdate, fadeInUpdate,
      fadeInScrollUpdate, if_neg hv] <;>
    (try split_ifs) <;> exact ⟨_, rfl⟩

/-- `update` writes only `offset` and `mutateScheduled`: every other field of
the element state is preserved. -/
theorem update_frame {p : Preset} {st : FxState} {e : ScrollEntry} {st1 : FxState} {n : Nat}
    (h : Presets.update p st e = .ok (st1, n)) :
    st1.adjustedViewportHeight = st.adjustedViewportHeight ∧ st1.factor = st.factor ∧
      st1.margin = st.margin ∧ st1.marginStart = st.marginStart ∧
      st1.marginEnd = st.marginEnd ∧ st1.hasRepeat = st.hasRepeat := by
  obtain ⟨rect⟩ := e
  cases p <;> cases rect <;>
    simp only [Presets.update, parallaxUpdate, flyInBottomUpdate, fadeInUpdate,
      fadeInScrollUpdate] at h <;>
    split_ifs at h <;>
    simp only [Except.ok.injEq, Prod.mk.injEq] at h <;>
    obtain ⟨h1, -⟩ := h <;> subst h1 <;> simp

/-- With a mutation already pending (`mutateScheduled = true`), `update`
schedules nothing, keeps the flag set, and at most recomputes `offset`
(only the parallax preset reaches its `setOffset` before the guard). -/
theorem update_pending (p : Preset) (st : FxState) (e : ScrollEntry)
    (hs : st.mutateScheduled = true) (hv : st.adjustedViewportHeight ≠ 0) :
    ∃ st1, Presets.update p st e = .ok (st1, 0) ∧ st1.mutateScheduled = true ∧
      st1.adjustedViewportHeight = st.adjustedViewportHeight ∧ st1.factor = st.factor ∧
      st1.margin = st.margin ∧ st1.marginStart = st.marginStart ∧
      st1.marginEnd = st.marginEnd ∧ st1.hasRepeat = st.hasRepeat ∧
      (p ≠ Preset.parallax → st1 = st) := by
  obtain ⟨rect⟩ := e
  cases p <;> cases rect <;>
    simp only [Presets.update, parallaxUpdate, flyInBottomUpdate, fadeInUpdate,
      fadeInScrollUpdate, if_neg hv, hs] <;>
    (try split_ifs) <;>
    exact ⟨_, rfl, by simp [hs], by simp, by simp, by simp, by simp, by simp, by simp,
      by simp [hs]⟩

/-- A run of `update` that flips `mutateScheduled` from false to true is
exactly a run that called `mutateElement` once. -/
theorem update_sched_count {p : Preset} {st : FxState} {e : ScrollEntry} {st1 : FxState} {n : Nat}
    (h : Presets.update p st e = .ok (st1, n)) (h0 : st.mutateScheduled = false)
    (h1 : st1.mutateScheduled = true) : n = 1 := by
  obtain ⟨rect⟩ := e
  cases p <;> cases rect <;>
    simp only [Presets.update, parallaxUpdate, flyInBottomUpdate, fadeInUpdate,
      fadeInScrollUpdate] at h <;>
    split_ifs at h <;> simp_all

/-- `ge0lt1` is the `[0, 1)` range check on non-`NaN` values. -/
theorem JsNum.ge0lt1_num (q : ℚ) : (JsNum.num q).ge0lt1 = true ↔ 0 ≤ q ∧ q < 1 := by
  simp [JsNum.ge0lt1]

/-! ### Results -/

/-- C1: for the parallax preset, every in-viewport entry
(`positionRect` present, `top <= adjustedViewportHeight`) makes `update`
store `offset = (adjustedViewportHeight - top) * -(factor - 1)`, while an
absent `positionRect` or `top > adjustedViewportHeight` makes `update`
return with the state untouched and no mutation scheduled. -/
theorem parallax_update_offset (st : FxState) (top : ℚ)
    (hv : st.adjustedViewportHeight ≠ 0) :
    (top ≤ st.adjustedViewportHeight →
      (parallaxUpdate st ⟨some top⟩).map (fun r => r.1.offset) =
        .ok ((st.adjustedViewportHeight - top) * (-(st.factor - 1)))) ∧
    (st.adjustedViewportHeight < top →
      parallaxUpdate st ⟨some top⟩ = .ok (st, 0)) ∧
    parallaxUpdate st ⟨none⟩ = .ok (st, 0) := by
  refine ⟨fun hle => ?_, fun hgt => ?_, ?_⟩
  · simp only [parallaxUpdate, if_neg hv]
    rw [if_neg (not_lt.mpr hle)]
    split_ifs <;> simp [Except.map]
  · simp only [parallaxUpdate, if_neg hv]
    rw [if_pos hgt]
  · simp [parallaxUpdate, if_neg hv]

/-- Witness for C1 at `adjustedViewportHeight = 100`, `factor = 2`,
`top = 0`. -/
theorem parallax_update_offset_witness :
    ((0:ℚ) ≤ (100:ℚ) →
      (parallaxUpdate ⟨100, 2, 0, 0, 0, 0, false, false⟩ ⟨some 0⟩).map
          (fun r => r.1.offset) = .ok (((100:ℚ) - 0) * (-((2:ℚ) - 1)))) ∧
    ((100:ℚ) < 0 →
      parallaxUpdate ⟨100, 2, 0, 0, 0, 0, false, false⟩ ⟨some 0⟩ =
        .ok (⟨100, 2, 0, 0, 0, 0, false, false⟩, 0)) ∧
    parallaxUpdate ⟨100, 2, 0, 0, 0, 0, false, false⟩ ⟨none⟩ =
      .ok (⟨100, 2, 0, 0, 0, 0, false, false⟩, 0) :=
  parallax_update_offset ⟨100, 2, 0, 0, 0, 0, false, false⟩ 0 (by norm_num)

/-- C7 counterexample: with `adjustedViewportHeight = 0` the `dev().assert`
at the top of `update` fails, so `update` does raise. -/
theorem update_no_error_cex :
    Presets.update Preset.parallax ⟨0, 2, 0, 0, 0, 0, false, false⟩ ⟨some 0⟩ =
      .error () := by
  simp [Presets.update, parallaxUpdate]

/-- C7 (amended): for every preset and every input whose element has a
nonzero `adjustedViewportHeight` (the `dev().assert`-ed precondition),
`update` never raises: out-of-viewport entries and a pending mutation are
silent early returns. -/
theorem update_no_error (p : Preset) (st : FxState) (e : ScrollEntry)
    (hv : st.adjustedViewportHeight ≠ 0) :
    Presets.update p st e ≠ Except.error () := by
  obtain ⟨r, hr⟩ := update_total p st e hv
  simp [hr]

/-- Witness for C7 (amended). -/
theorem update_no_error_witness :
    Presets.update Preset.fadeInScroll ⟨100, 2, 0, 0, 0, 0, true, true⟩ ⟨some 5⟩ ≠
      Except.error () :=
  update_no_error Preset.fadeInScroll ⟨100, 2, 0, 0, 0, 0, true, true⟩ ⟨some 5⟩
    (by norm_num)

/-- C8: for every preset, an entry with `positionRect` absent leaves the
state untouched and calls `mutateElement` zero times, so `mutateScheduled`
in particular stays false. -/
theorem update_rect_absent (p : Preset) (st : FxState)
    (hv : st.adjustedViewportHeight ≠ 0) :
    Presets.update p st ⟨none⟩ = .ok (st, 0) := by
  cases p <;>
    simp [Presets.update, parallaxUpdate, flyInBottomUpdate, fadeInUpdate,
      fadeInScrollUpdate, if_neg hv]

/-- Witness for C8. -/
theorem update_rect_absent_witness :
    Presets.update Preset.fadeIn ⟨100, 2, 0, 0, 0, 0, false, false⟩ ⟨none⟩ =
      .ok (⟨100, 2, 0, 0, 0, 0, false, false⟩, 0) :=
  update_rect_absent Preset.fadeIn ⟨100, 2, 0, 0, 0, 0, false, false⟩ (by norm_num)

/-- C9 counterexample: with the `amp-fx-fade-in` experiment on, fade-in's
`isFxTypeSupported` falls off the end of the function and returns
`undefined` (`none` in the model), not a boolean. -/
theorem isFxTypeSupported_cex :
    Presets.isFxTypeSupported Preset.fadeIn ⟨true, true⟩ = .ok none ∧
    Presets.isFxTypeSupported Preset.fadeIn ⟨true, true⟩ ≠ .ok (some true) ∧
    Presets.isFxTypeSupported Preset.fadeIn ⟨true, true⟩ ≠ .ok (some false) := by
  refine ⟨rfl, ?_, ?_⟩ <;> simp [Presets.isFxTypeSupported]

/-- C9 (amended): `parallax` and `fly-in-bottom` return `true`; the
experimental presets fail exactly when their experiment flag is off and
return `undefined` rather than a boolean when it is on. -/
theorem isFxTypeSupported_spec (w : AmpWin) :
    Presets.isFxTypeSupported Preset.parallax w = .ok (some true) ∧
    Presets.isFxTypeSupported Preset.flyInBottom w = .ok (some true) ∧
    Presets.isFxTypeSupported Preset.fadeIn w =
      (if w.ampFxFadeIn then .ok none else .error ()) ∧
    Presets.isFxTypeSupported Preset.fadeInScroll w =
      (if w.ampFxFadeInScroll then .ok none else .error ()) :=
  ⟨rfl, rfl, rfl, rfl⟩
/-- C2: for every preset, when a first `update` call flips
`mutateScheduled` to true (its pending mutation has not yet run), that
first call scheduled exactly one mutation and a second `update` call
schedules none and leaves the flag set: exactly one mutation in total. -/
theorem update_single_mutation (p : Preset) (s t : FxState) (n : Nat)
    (e f : ScrollEntry) (h1 : Presets.update p s e = .ok (t, n))
    (h0 : s.mutateScheduled = false) (hsch : t.mutateScheduled = true) :
    n = 1 ∧ (Presets.update p t f).map (fun r => (r.1.mutateScheduled, r.2)) =
      .ok (true, 0) := by
  have hv : t.adjustedViewportHeight ≠ 0 := by
    rw [(update_frame h1).1]; exact update_ok_avh h1
  obtain ⟨t2, h2, hflag, -⟩ := update_pending p t f hsch hv
  refine ⟨update_sched_count h1 h0 hsch, ?_⟩
  rw [h2]
  simp [Except.map, hflag]

/-- Witness for C2: parallax at `adjustedViewportHeight = 100`,
`factor = 2`; first call at `top = 0`, second at `top = 10`. -/
theorem update_single_mutation_witness :
    (1 : Nat) = 1 ∧
    (Presets.update Preset.parallax ⟨100, 2, 0, 0, 0, -100, true, false⟩
        ⟨some 10⟩).map (fun r => (r.1.mutateScheduled, r.2)) = .ok (true, 0) :=
  update_single_mutation Preset.parallax ⟨100, 2, 0, 0, 0, 0, false, false⟩
    ⟨100, 2, 0, 0, 0, -100, true, false⟩ 1 ⟨some 0⟩ ⟨some 10⟩
    (by norm_num [Presets.update, parallaxUpdate]) rfl rfl

/-- C3 counterexample: for parallax, `setOffset` runs before the
`mutateScheduled` guard, so a second in-viewport `update` while a mutation
is pending does change the stored `offset` (here from 0 to -80): it is not
a no-op on every field of the state. -/
theorem update_pending_noop_cex :
    parallaxUpdate ⟨100, 2, 0, 0, 0, 0, true, false⟩ ⟨some 20⟩ =
      .ok (⟨100, 2, 0, 0, 0, -80, true, false⟩, 0) ∧
    (⟨100, 2, 0, 0, 0, -80, true, false⟩ : FxState) ≠
      ⟨100, 2, 0, 0, 0, 0, true, false⟩ := by
  constructor
  · norm_num [parallaxUpdate]
  · intro h
    have := congrArg FxState.offset h
    norm_num at this

/-- C3 (amended): calling `update` again while `mutateScheduled` is true
schedules nothing and changes no field other than `offset` (restoring the
old `offset` recovers the old state exactly); for every preset other than
parallax it is a full no-op. -/
theorem update_pending_noop (p : Preset) (st : FxState) (e : ScrollEntry)
    (hs : st.mutateScheduled = true) (hv : st.adjustedViewportHeight ≠ 0) :
    (Presets.update p st e).map (fun r => ({ r.1 with offset := st.offset }, r.2)) =
      .ok (st, 0) ∧
    (p ≠ Preset.parallax → Presets.update p st e = .ok (st, 0)) := by
  obtain ⟨t, h2, hflag, ha, hf, hm, hms, hme, hr, hnp⟩ := update_pending p st e hs hv
  constructor
  · rw [h2]
    simp only [Except.map, Except.ok.injEq, Prod.mk.injEq]
    refine ⟨FxState.eq_of_fields ?_ ?_ ?_ ?_ ?_ ?_ ?_ ?_, trivial⟩ <;>
      simp [ha, hf, hm, hms, hme, hr, hflag, hs]
  · intro hp
    rw [hnp hp] at h2
    exact h2

/-- Witness for C3 (amended): fade-in with a pending mutation. -/
theorem update_pending_noop_witness :
    (Presets.update Preset.fadeIn ⟨100, 2, 0, 0, 0, 0, true, false⟩ ⟨some 10⟩).map
        (fun r => ({ r.1 with offset := (0:ℚ) }, r.2)) =
      .ok (⟨100, 2, 0, 0, 0, 0, true, false⟩, 0) ∧
    (Preset.fadeIn ≠ Preset.parallax →
      Presets.update Preset.fadeIn ⟨100, 2, 0, 0, 0, 0, true, false⟩ ⟨some 10⟩ =
        .ok (⟨100, 2, 0, 0, 0, 0, true, false⟩, 0)) :=
  update_pending_noop Preset.fadeIn ⟨100, 2, 0, 0, 0, 0, true, false⟩ ⟨some 10⟩
    rfl (by norm_num)
/-- C4 counterexample: with validated margins `marginStart = 0`,
`marginEnd = 1/2` and `adjustedViewportHeight = 100`, the offset at
`top = marginStart * height = 0` is 2 (not 1), and the offset at
`top = marginEnd * height = 50` is 1 (not 0). -/
theorem fadeInScrollOffset_boundary_cex :
    ((0:ℚ) ≤ 0 ∧ (0:ℚ) < 1/2 ∧ (1:ℚ)/2 < 1 ∧ (0:ℚ) < 100) ∧
    ((0:ℚ) = 0 * 100 ∧ fadeInScrollOffset 100 0 0 (1/2) = 2 ∧
      fadeInScrollOffset 100 0 0 (1/2) ≠ 1) ∧
    ((50:ℚ) = (1/2) * 100 ∧ fadeInScrollOffset 100 50 0 (1/2) = 1 ∧
      fadeInScrollOffset 100 50 0 (1/2) ≠ 0) := by
  norm_num [fadeInScrollOffset]

/-- C4 (amended): with validated margins and a positive viewport height,
the fade-in-scroll offset equals 1 exactly when
`top = (1 - marginEnd) * adjustedViewportHeight` and equals 0 exactly when
`top = (1 - marginStart) * adjustedViewportHeight`. -/
theorem fadeInScrollOffset_boundary (avh top ms me : ℚ)
    (h0 : 0 ≤ ms) (h1 : ms < me) (h2 : me < 1) (hv : 0 < avh) :
    (fadeInScrollOffset avh top ms me = 1 ↔ top = (1 - me) * avh) ∧
    (fadeInScrollOffset avh top ms me = 0 ↔ top = (1 - ms) * avh) := by
  have hd : (me - ms) * avh ≠ 0 := mul_ne_zero (by linarith) (ne_of_gt hv)
  unfold fadeInScrollOffset
  rw [div_eq_iff hd, div_eq_iff hd]
  constructor
  · constructor
    · intro h; linear_combination -h
    · intro h; linear_combination -h
  · constructor
    · intro h; linear_combination -h
    · intro h; linear_combination -h

/-- Witness for C4 (amended) at `height = 100`, `marginStart = 0`,
`marginEnd = 1/2`, `top = 50`. -/
theorem fadeInScrollOffset_boundary_witness :
    (fadeInScrollOffset 100 50 0 (1/2) = 1 ↔ (50:ℚ) = (1 - 1/2) * 100) ∧
    (fadeInScrollOffset 100 50 0 (1/2) = 0 ↔ (50:ℚ) = (1 - 0) * 100) :=
  fadeInScrollOffset_boundary 100 50 0 (1/2) (by norm_num) (by norm_num)
    (by norm_num) (by norm_num)

/-- C5: a present margin attribute fails validation exactly when its parsed
value is outside `[0, 1)` (a non-numeric string parses to `NaN` and always
fails), and for fade-in-scroll with both margins present and in range,
validation fails exactly when `marginEnd` is not greater than
`marginStart`. -/
theorem userAsserts_margin_range (el : FxElementAttrs) (q s u v : ℚ) :
    (el.dataMargin = some (JsNum.num q) →
      (flyInBottomUserAsserts el = .error () ↔ ¬ (0 ≤ q ∧ q < 1))) ∧
    (el.dataMargin = some JsNum.nan → flyInBottomUserAsserts el = .error ()) ∧
    (el.dataMarginStart = some (JsNum.num s) →
      (fadeInUserAsserts el = .error () ↔ ¬ (0 ≤ s ∧ s < 1))) ∧
    (el.dataMarginStart = some JsNum.nan → fadeInUserAsserts el = .error ()) ∧
    (el.dataMarginStart = some (JsNum.num u) → el.dataMarginEnd = some (JsNum.num v) →
      0 ≤ u → u < 1 → 0 ≤ v → v < 1 →
      (fadeInScrollUserAsserts el = .error () ↔ ¬ u < v)) := by
  refine ⟨fun h => ?_, fun h => ?_, fun h => ?_, fun h => ?_,
    fun h1 h2 hu0 hu1 hv0 hv1 => ?_⟩
  · by_cases hq : 0 ≤ q ∧ q < 1 <;>
      simp [flyInBottomUserAsserts, h, JsNum.ge0lt1, hq]
  · simp [flyInBottomUserAsserts, h, JsNum.ge0lt1]
  · by_cases hs : 0 ≤ s ∧ s < 1 <;>
      simp [fadeInUserAsserts, h, JsNum.ge0lt1, hs]
  · simp [fadeInUserAsserts, h, JsNum.ge0lt1]
  · by_cases huv : u < v <;>
      simp [fadeInScrollUserAsserts, h1, h2, parseFloatAttr, JsNum.ge0lt1,
        JsNum.gtNum, hu0, hu1, hv0, hv1, huv]

/-- Witness for C5: `data-margin = "2"` (rejected),
`data-margin-start = "0"`, `data-margin-end = "0.5"` (accepted pair). -/
theorem userAsserts_margin_range_witness :
    (flyInBottomUserAsserts ⟨none, some (.num 2), some (.num 0), some (.num (1/2))⟩ =
        .error () ↔ ¬ ((0:ℚ) ≤ 2 ∧ (2:ℚ) < 1)) ∧
    (fadeInUserAsserts ⟨none, some (.num 2), some (.num 0), some (.num (1/2))⟩ =
        .error () ↔ ¬ ((0:ℚ) ≤ 0 ∧ (0:ℚ) < 1)) ∧
    (fadeInScrollUserAsserts ⟨none, some (.num 2), some (.num 0), some (.num (1/2))⟩ =
        .error () ↔ ¬ (0:ℚ) < 1/2) := by
  have h := userAsserts_margin_range
    ⟨none, some (.num 2), some (.num 0), some (.num (1/2))⟩ 2 0 0 (1/2)
  exact ⟨h.1 rfl, h.2.2.1 rfl,
    h.2.2.2.2 rfl rfl (by norm_num) (by norm_num) (by norm_num) (by norm_num)⟩

/-- C6 counterexample: fly-in-bottom's `userAsserts` returns without error
when `data-margin` is absent, and fade-in's returns without error when
`data-margin-start` is absent (both have an early `hasAttribute` return),
contradicting the claim that a missing numeric attribute always fails. -/
theorem userAsserts_missing_cex :
    flyInBottomUserAsserts ⟨none, none, none, none⟩ = .ok () ∧
    fadeInUserAsserts ⟨none, none, none, none⟩ = .ok () :=
  ⟨rfl, rfl⟩

/-- C6 (amended): only parallax's `userAsserts` fails on a missing
attribute (`data-parallax-factor`); fly-in-bottom and fade-in return
without error when their margin attribute is absent, as does
fade-in-scroll when both of its margin attributes are absent. -/
theorem userAsserts_missing (el : FxElementAttrs) :
    (el.dataParallaxFactor = none → parallaxUserAsserts el = .error ()) ∧
    (el.dataMargin = none → flyInBottomUserAsserts el = .ok ()) ∧
    (el.dataMarginStart = none → fadeInUserAsserts el = .ok ()) ∧
    (el.dataMarginStart = none → el.dataMarginEnd = none →
      fadeInScrollUserAsserts el = .ok ()) := by
  refine ⟨fun h => ?_, fun h => ?_, fun h => ?_, fun h1 h2 => ?_⟩
  · simp [parallaxUserAsserts, h]
  · simp [flyInBottomUserAsserts, h]
  · simp [fadeInUserAsserts, h]
  · simp [fadeInScrollUserAsserts, h1, h2]

/-- Witness for C6 (amended) on an element with no attributes. -/
theorem userAsserts_missing_witness :
    parallaxUserAsserts ⟨none, none, none, none⟩ = .error () ∧
    flyInBottomUserAsserts ⟨none, none, none, none⟩ = .ok () ∧
    fadeInUserAsserts ⟨none, none, none, none⟩ = .ok () ∧
    fadeInScrollUserAsserts ⟨none, none, none, none⟩ = .ok () := by
  have h := userAsserts_missing ⟨none, none, none, none⟩
  exact ⟨h.1 rfl, h.2.1 rfl, h.2.2.1 rfl, h.2.2.2 rfl rfl⟩

/-- C10: fade-in-scroll's `userAsserts` accepts an element with neither
margin attribute, but rejects an element with exactly one of them present,
even when the present one is in `[0, 1)`: the absent side parses to `NaN`
and fails its range assertion. -/
theorem fadeInScroll_margin_presence (el : FxElementAttrs) (q : ℚ) :
    (el.dataMarginStart = none → el.dataMarginEnd = none →
      fadeInScrollUserAsserts el = .ok ()) ∧
    (el.dataMarginStart = some (JsNum.num q) → 0 ≤ q → q < 1 →
      el.dataMarginEnd = none → fadeInScrollUserAsserts el = .error ()) ∧
    (el.dataMarginStart = none → el.dataMarginEnd = some (JsNum.num q) →
      0 ≤ q → q < 1 → fadeInScrollUserAsserts el = .error ()) := by
  refine ⟨fun h1 h2 => ?_, fun h1 hq0 hq1 h2 => ?_, fun h1 h2 hq0 hq1 => ?_⟩
  · simp [fadeInScrollUserAsserts, h1, h2]
  · simp [fadeInScrollUserAsserts, h1, h2, parseFloatAttr, JsNum.ge0lt1, hq0, hq1]
  · simp [fadeInScrollUserAsserts, h1, h2, parseFloatAttr, JsNum.ge0lt1]

/-- Witness for C10 with the valid value `1/2` on either side. -/
theorem fadeInScroll_margin_presence_witness :
    fadeInScrollUserAsserts ⟨none, none, none, none⟩ = .ok () ∧
    fadeInScrollUserAsserts ⟨none, none, some (.num (1/2)), none⟩ = .error () ∧
    fadeInScrollUserAsserts ⟨none, none, none, some (.num (1/2))⟩ = .error () :=
  ⟨(fadeInScroll_margin_presence ⟨none, none, none, none⟩ 0).1 rfl rfl,
    (fadeInScroll_margin_presence ⟨none, none, some (.num (1/2)), none⟩ (1/2)).2.1
      rfl (by norm_num) (by norm_num) rfl,
    (fadeInScroll_margin_presence ⟨none, none, none, some (.num (1/2))⟩ (1/2)).2.2
      rfl rfl (by norm_num) (by norm_num)⟩
